import Mathlib

/-!
Shallow embedding of the message-routing pipeline of this repository
(`src/unnamed/part_002`, the `EvaluateQuery`/`Chatbot` variant, which the
UI's `processMessage` entry point uses).  JavaScript values flowing through
the pipeline are modelled by the inductive `Json`; the external model
endpoint and the configuration fetch are modelled by explicit outcome
oracles; exceptions are modelled by `Except String`; the caller-supplied
log sink is abstracted to the per-stage entry events it would receive
(the `Stage` trace), which is what the claims about stage invocation need.
-/

set_option maxRecDepth 20000

namespace GensxMcp

/-- Model of a JavaScript/JSON value as produced by `JSON.parse` and passed
between the pipeline stages.  Numbers are restricted to integers: no prompt,
response or configuration handled by the claims involves fractional numbers,
and the model JSON reader rejects fraction/exponent syntax rather than
misread it. -/
inductive Json where
  | str (text : String) : Json
  | num (value : Int) : Json
  | bool (value : Bool) : Json
  | null : Json
  | arr (items : List Json) : Json
  | obj (props : List (String × Json)) : Json

/-- First field of a JavaScript object with the given key (object keys are
unique after `JSON.parse`; the model keeps the first binding). -/
def lookupField : List (String × Json) → String → Option Json
  | [], _ => none
  | (k', v) :: rest, k => if k' = k then some v else lookupField rest k

/-- Property read `j[k]`: `some` for an own field of an object, `none`
(JavaScript `undefined`) otherwise.  Index properties of strings and arrays
are not modelled; every key the pipeline reads (`needsMCP`, `serverName`,
`reasoning`, `mcpServers`) is non-numeric, so they are `undefined` on
non-objects exactly as here. -/
def jsGet : Json → String → Option Json
  | .obj fs, k => lookupField fs k
  | _, _ => none

/-- Property write on a field list: JavaScript keeps the position of an
existing key and appends a new key at the end (insertion order). -/
def setField : List (String × Json) → String → Json → List (String × Json)
  | [], k, v => [(k, v)]
  | (k', v') :: rest, k, v =>
    if k' = k then (k', v) :: rest else (k', v') :: setField rest k v

/-- Property write `j[k] = v`.  Non-objects are returned unchanged: the
pipeline only assigns `result.serverName` under a guard that forces
`result` to be an object (a truthy `needsMCP` field). -/
def jsSet : Json → String → Json → Json
  | .obj fs, k, v => .obj (setField fs k v)
  | j, _, _ => j

/-- JavaScript truthiness of a value. -/
def jsTruthy : Json → Bool
  | .null => false
  | .bool b => b
  | .num n => decide (n ≠ 0)
  | .str s => decide (s ≠ "")
  | .arr _ => true
  | .obj _ => true

/-- JavaScript truthiness of a possibly-`undefined` property read. -/
def jsTruthyOpt : Option Json → Bool
  | none => false
  | some j => jsTruthy j

/-- String content of a value when it is a string. -/
def Json.asStr : Json → Option String
  | .str s => some s
  | _ => none

/-- String field of an object, when present and a string. -/
def getStrField (j : Json) (k : String) : Option String :=
  (jsGet j k).bind Json.asStr

/-- Whether a value is JSON `null` (the one value whose property reads
throw a `TypeError` in JavaScript). -/
def Json.isNull : Json → Bool
  | .null => true
  | _ => false

/-- JavaScript string coercion, used for the computed property key
`mcpConfigs[serverName]`.  Arrays and objects are approximated by
constants: the registry keys and every server name the claims exercise are
plain strings, so these cases are never reached with a key that exists. -/
def jsToString : Json → String
  | .str s => s
  | .bool true => "true"
  | .bool false => "false"
  | .num n => toString n
  | .null => "null"
  | .arr _ => ""
  | .obj _ => "[object Object]"

/-- Own enumerable entries of a value, as `Object.entries` would list them
(fields for objects, indexed elements for arrays and strings, nothing for
other primitives).  `null` is excluded before this is called, since
`Object.keys(null)` throws. -/
def jsEntries : Json → List (String × Json)
  | .obj fs => fs
  | .arr xs => xs.enum.map (fun p => (toString p.1, p.2))
  | .str s => s.toList.enum.map (fun p => (toString p.1, .str (String.singleton p.2)))
  | _ => []

/-- Key of the first registered tool, `Object.keys(mcpConfigs)[0]`. -/
def firstKey (cfgs : List (String × Json)) : String :=
  match cfgs with
  | [] => ""
  | (k, _) :: _ => k

/-! ### Model of the runtime `JSON.parse`

A JSON reader restricted to the value forms the pipeline exchanges:
objects, arrays, strings with the common single-character escapes, integer
numbers, `true`, `false`, `null`.  `\u` escapes and fraction/exponent
number syntax make the reader fail rather than produce a wrong value. -/

/-- Skip JSON whitespace (space, tab, newline, carriage return). -/
def skipWs : List Char → List Char
  | [] => []
  | c :: rest =>
    if c = '\t' ∨ c = '\r' ∨ c = '\n' ∨ c = ' ' then skipWs rest else c :: rest

/-- Translation of a JSON single-character escape (quote, backslash and
slash map to themselves; `n`, `t`, `r`, `b`, `f` to their control
characters; anything else, `\u` included, is unsupported). -/
def escChar (c : Char) : Option Char :=
  if c = 'n' then some '\n'
  else if c = 't' then some '\t'
  else if c = 'r' then some '\r'
  else if c = 'b' then some (Char.ofNat 8)
  else if c = 'f' then some (Char.ofNat 12)
  else if c = '"' ∨ c = '\\' ∨ c = '/' then some c
  else none

/-- Body of a JSON string after the opening quote: returns the decoded
content and the input after the closing quote.  Raw control characters are
rejected, as `JSON.parse` rejects them. -/
def parseStringBody : List Char → Option (List Char × List Char)
  | [] => none
  | '"' :: rest => some ([], rest)
  | '\\' :: rest =>
    match rest with
    | [] => none
    | c :: rest' =>
      match escChar c with
      | some e => (parseStringBody rest').map (fun p => (e :: p.1, p.2))
      | none => none
  | c :: rest =>
    if c.toNat < 32 then none
    else (parseStringBody rest).map (fun p => (c :: p.1, p.2))

/-- Longest digit run at the head of the input, with the remainder. -/
def digitRun : List Char → (List Char × List Char)
  | [] => ([], [])
  | c :: rest =>
    if !c.isDigit then ([], c :: rest)
    else
      match digitRun rest with
      | (ds, r) => (c :: ds, r)

/-- Numeric value of a digit run, accumulator style. -/
def digitsToNat : List Char → Nat → Nat
  | [], acc => acc
  | c :: rest, acc => digitsToNat rest (acc * 10 + (c.toNat - 48))

/-- JSON integer token: optional minus, digits without a redundant leading
zero, not followed by fraction or exponent syntax (which the model
rejects). -/
def parseIntToken (cs : List Char) : Option (Int × List Char) :=
  let neg : Bool := cs.headD 'x' = '-'
  match digitRun (if neg then cs.tail else cs) with
  | ([], _) => none
  | (ds, rest) =>
    if ds.length > 1 && ds.headD '0' == '0' then none
    else
      match rest with
      | '.' :: _ => none
      | 'e' :: _ => none
      | 'E' :: _ => none
      | _ =>
        let n : Int := Int.ofNat (digitsToNat ds 0)
        some (if neg then -n else n, rest)

mutual

/-- JSON value parser (fuel-indexed; each recursive call follows the
consumption of at least one input character, so fuel `length + 2` always
suffices). -/
def parseVal : Nat → List Char → Option (Json × List Char)
  | 0, _ => none
  | fuel + 1, cs0 =>
    match skipWs cs0 with
    | '"' :: rest => (parseStringBody rest).map (fun p => (Json.str (String.mk p.1), p.2))
    | '{' :: rest =>
      (match skipWs rest with
       | '}' :: r2 => some (Json.obj [], r2)
       | _ => (parseFields fuel [] rest).map (fun p => (Json.obj p.1, p.2)))
    | '[' :: rest =>
      (match skipWs rest with
       | ']' :: r2 => some (Json.arr [], r2)
       | _ => (parseElems fuel [] rest).map (fun p => (Json.arr p.1, p.2)))
    | 'n' :: 'u' :: 'l' :: 'l' :: rest => some (Json.null, rest)
    | 't' :: 'r' :: 'u' :: 'e' :: rest => some (Json.bool true, rest)
    | 'f' :: 'a' :: 'l' :: 's' :: 'e' :: rest => some (Json.bool false, rest)
    | cs => (parseIntToken cs).map (fun p => (Json.num p.1, p.2))

/-- Members of a JSON object after the opening brace (at least one member).
Duplicate keys follow JavaScript semantics via `setField`: last value,
first position. -/
def parseFields : Nat → List (String × Json) → List Char → Option (List (String × Json) × List Char)
  | 0, _, _ => none
  | fuel + 1, acc, cs =>
    match skipWs cs with
    | '"' :: rest =>
      (match parseStringBody rest with
       | none => none
       | some (kcs, r1) =>
         match skipWs r1 with
         | ':' :: r2 =>
           (match parseVal fuel r2 with
            | none => none
            | some (v, r3) =>
              let acc' := setField acc (String.mk kcs) v
              match skipWs r3 with
              | ',' :: r4 => parseFields fuel acc' r4
              | '}' :: r4 => some (acc', r4)
              | _ => none)
         | _ => none)
    | _ => none

/-- Elements of a JSON array after the opening bracket (at least one
element). -/
def parseElems : Nat → List Json → List Char → Option (List Json × List Char)
  | 0, _, _ => none
  | fuel + 1, acc, cs =>
    match parseVal fuel cs with
    | none => none
    | some (v, r1) =>
      match skipWs r1 with
      | ',' :: r2 => parseElems fuel (acc ++ [v]) r2
      | ']' :: r2 => some (acc ++ [v], r2)
      | _ => none

end

/-- Model of the runtime `JSON.parse`: a single JSON value surrounded by
optional whitespace, or failure. -/
def jsonParse (s : String) : Option Json :=
  let cs := s.toList
  match parseVal (cs.length + 2) cs with
  | some (v, rest) => if (skipWs rest).isEmpty then some v else none
  | none => none

/-! ### Model of the three extraction regexes of `callOpenAI`

`part_002` lines 110-112 try, in order,
`/```json\s*([\s\S]*?)\s*```/`, then `/```\s*([\s\S]*?)\s*```/`, then
`/(\{[\s\S]*\})/` on the raw model text.  For the two fence patterns the
leftmost match starts at the first occurrence of the opening token, the
lazy group ends at the next occurrence of three backticks, and the greedy
`\s*` on both sides of the lazy group absorb the surrounding whitespace, so
the captured group is exactly the text between the two tokens with
whitespace trimmed (and it is empty, hence falsy for the `jsonMatch[1]`
test, exactly when that text is all whitespace).  For the brace pattern the
greedy `[\s\S]*` makes the capture run from the first brace that is
followed by a closing brace to the last closing brace of the text. -/

/-- Whitespace as the `\s` regex class and `String.prototype.trim` see it,
restricted to the ASCII range (the Unicode space characters never occur in
the texts the claims exercise). -/
def isWsChar (c : Char) : Bool :=
  c = ' ' || c = '\t' || c = '\n' || c = '\r' || c = '\x0b' || c = '\x0c'

/-- Both-ends whitespace trim on character lists. -/
def trimChars (cs : List Char) : List Char :=
  (((cs.dropWhile isWsChar).reverse).dropWhile isWsChar).reverse

/-- Model of the JavaScript `trim()`. -/
def trimStr (s : String) : String :=
  String.mk (trimChars s.toList)

/-- Split at the first occurrence of `needle`: the part before it and the
part after it, or `none` when `needle` does not occur. -/
def splitFirst (needle : List Char) : List Char → Option (List Char × List Char)
  | [] => if needle.isEmpty then some ([], []) else none
  | c :: rest =>
    if needle.isPrefixOf (c :: rest) then some ([], (c :: rest).drop needle.length)
    else
      match splitFirst needle rest with
      | some (pre, post) => some (c :: pre, post)
      | none => none

/-- Token of three backticks. -/
def fenceTok : List Char := '`' :: '`' :: '`' :: []

/-- Token opening a labeled fence. -/
def jsonFenceTok : List Char := fenceTok ++ ('j' :: 's' :: 'o' :: 'n' :: [])

/-- Captured group of `/```json\s*([\s\S]*?)\s*```/` on the text, when the
pattern matches. -/
def matchJsonFence (s : String) : Option String :=
  match splitFirst jsonFenceTok s.toList with
  | none => none
  | some (_, afterOpen) =>
    match splitFirst fenceTok afterOpen with
    | none => none
    | some (between, _) => some (trimStr (String.mk between))

/-- Captured group of `/```\s*([\s\S]*?)\s*```/` on the text, when the
pattern matches. -/
def matchAnyFence (s : String) : Option String :=
  match splitFirst fenceTok s.toList with
  | none => none
  | some (_, afterOpen) =>
    match splitFirst fenceTok afterOpen with
    | none => none
    | some (between, _) => some (trimStr (String.mk between))

/-- Captured group of `/(\{[\s\S]*\})/` on the text, when the pattern
matches: from the first opening brace to the last closing brace after it. -/
def matchBraces (s : String) : Option String :=
  match splitFirst ('\x7b' :: []) s.toList with
  | none => none
  | some (_, afterBrace) =>
    match splitFirst ('\x7d' :: []) afterBrace.reverse with
    | none => none
    | some (_, revInner) => some (String.mk ('\x7b' :: (revInner.reverse ++ ('\x7d' :: []))))

/-! ### The Response Parser (`part_002` lines 102-140) -/

/-- Sentinel returned when no extraction pattern matched the text, or when
the matched capture group was empty (`part_002` lines 134-138; an empty
capture fails the `jsonMatch[1]` truthiness test). -/
def noPatternSentinel : Json :=
  .obj [("needsMCP", .bool false),
        ("reasoning", .str "Fallback due to JSON parsing error. No JSON pattern found.")]

/-- Sentinel returned when an extracted candidate failed to parse
(`part_002` lines 125-129): the reasoning embeds the first 100 characters
of the raw model text. -/
def rawSentinel (t : String) : Json :=
  .obj [("needsMCP", .bool false),
        ("reasoning", .str ("Fallback due to JSON parsing error. Raw response: " ++ t.take 100))]

/-- First extraction that matches, in the order of the `||` chain of
`part_002` lines 110-112. -/
def jsonMatchCapture (t : String) : Option String :=
  match matchJsonFence t with
  | some c => some c
  | none =>
    match matchAnyFence t with
    | some c => some c
    | none => matchBraces t

/-- Handling of a matched capture group (`part_002` lines 114-138): an
empty capture is falsy and drops to the no-pattern fallback; otherwise the
trimmed capture is parsed, with the raw-response sentinel on failure. -/
def handleExtracted (t : String) (c : String) : Json :=
  if c = "" then noPatternSentinel
  else
    match jsonParse (trimStr c) with
    | some v => v
    | none => rawSentinel t

/-- The Response Parser: the `useJson` branch of `callOpenAI`
(`part_002` lines 102-140).  Strict parse of the whole text first; then
the first matching extraction's capture is parsed; a sentinel results when
nothing matched or the candidate did not parse. -/
def parseLLMResponse (t : String) : Json :=
  match jsonParse t with
  | some v => v
  | none =>
    match jsonMatchCapture t with
    | some c => handleExtracted t c
    | none => noPatternSentinel

/-! ### The Model Client (`part_002` lines 55-155) -/

/-- Role of a chat turn. -/
inductive Role where
  | user : Role
  | assistant : Role
  | system : Role
deriving DecidableEq

/-- A chat turn (`Message` interface of `part_002`). -/
structure Message where
  role : Role
  content : String
deriving DecidableEq

/-- Outcome of one HTTP round trip to the chat-completion endpoint.
`success` carries `choices[0].message.content`; `httpError` carries the
resolved `errorData.error?.message || response.statusText` of a non-ok
response; `networkError` carries the message of the error thrown by
`fetch` (or the response-body parse). -/
inductive FetchOutcome where
  | networkError (msg : String) : FetchOutcome
  | httpError (msg : String) : FetchOutcome
  | success (content : String) : FetchOutcome

/-- The data each stage splices into its prompt template.  The template
literals themselves (`part_002` lines 167-198, 244-253, 302-314, 342-354)
are abstractions over exactly these inputs, so an oracle over `LLMRequest`
is as discriminating as one over the literal prompt strings. -/
inductive LLMRequest where
  | evaluate (history : List Message) (latest : String) (configs : List (String × Json)) : LLMRequest
  | direct (history : List Message) (latest : String) : LLMRequest
  | execute (serverName : String) (config : Json) (history : List Message) (latest : String) : LLMRequest
  | format (history : List Message) (latest : String) (mcpResult : Json) : LLMRequest

/-- Behaviour of the external model endpoint during a run: the outcome of
the one HTTP call made for a given request. -/
def Oracle : Type := LLMRequest → FetchOutcome

/-- Canned reply of `callOpenAI`'s outer catch when no structured output
was requested (`part_002` line 152).  `GenerateDirectResponse`'s own catch
(line 271) returns the verbatim same text. -/
def clientApology : String :=
  "I apologize, but I encountered an error while processing your request. Could you try rephrasing your question?"

/-- Value returned by `callOpenAI`'s outer catch (`part_002` lines
143-154): a no-tool fallback object when structured output was requested,
the canned apology text otherwise. -/
def catchFallback (errMsg : String) (useJson : Bool) : Json :=
  if useJson then
    .obj [("needsMCP", .bool false), ("reasoning", .str ("Fallback due to error: " ++ errMsg))]
  else .str clientApology

/-- The Model Client (`part_002` lines 55-155).  A missing credential
throws before the `try` block, so it is the only failure that escapes to
the caller; a non-ok response raises `OpenAI API error: ...` inside the
`try` and every transport or upstream failure is swallowed by the outer
catch, which manufactures `catchFallback`. -/
def callOpenAI (oracle : Oracle) (req : LLMRequest) (apiKey : Option String)
    (useJson : Bool) : Except String Json :=
  match apiKey with
  | none => .error "OpenAI API key is required"
  | some _ =>
    match oracle req with
    | .success text => if useJson then .ok (parseLLMResponse text) else .ok (.str text)
    | .httpError msg => .ok (catchFallback ("OpenAI API error: " ++ msg) useJson)
    | .networkError msg => .ok (catchFallback msg useJson)

/-! ### The pipeline stages (`part_002` lines 157-375)

Each stage is modelled as the value it settles its promise with (or the
error it rejects with, which never happens for these stages) together with
the trace of stage entries, the abstraction of the log lines each stage
emits on entry. -/

/-- Entry marker of one pipeline stage, the abstraction of the first log
line each stage sends to the caller's log sink. -/
inductive Stage where
  | evaluateQuery : Stage
  | executeMCPCall : Stage
  | generateDirectResponse : Stage
  | formatResponse : Stage
deriving DecidableEq

/-- Fallback Decision of `EvaluateQuery`'s catch (`part_002` lines
230-233). -/
def evalFallback : Json :=
  .obj [("needsMCP", .bool false),
        ("reasoning", .str "Error during evaluation, falling back to direct response")]

/-- Body of `EvaluateQuery`'s `try` block (`part_002` lines 203-224): the
structured model call, the log reads of `result.needsMCP` (which throw a
`TypeError` when the result is JSON `null`, line 209), and the
first-registered-server substitution (lines 217-222). -/
def evalBody (oracle : Oracle) (chatHistory : List Message) (latestMessage : String)
    (mcpConfigs : List (String × Json)) (apiKey : Option String) : Except String Json :=
  match callOpenAI oracle (.evaluate chatHistory latestMessage mcpConfigs) apiKey true with
  | .error e => .error e
  | .ok result =>
    if result.isNull then .error "Cannot read properties of null"
    else
      if jsTruthyOpt (jsGet result "needsMCP") &&
         !jsTruthyOpt (jsGet result "serverName") &&
         decide (0 < mcpConfigs.length) then
        .ok (jsSet result "serverName" (.str (firstKey mcpConfigs)))
      else .ok result

/-- The Decision Stage (`part_002` lines 157-236): the `try` body wrapped
in the catch that degrades every failure to `evalFallback`. -/
def EvaluateQuery (oracle : Oracle) (chatHistory : List Message) (latestMessage : String)
    (mcpConfigs : List (String × Json)) (apiKey : Option String) :
    Except String Json × List Stage :=
  (match evalBody oracle chatHistory latestMessage mcpConfigs apiKey with
   | .error _ => .ok evalFallback
   | .ok v => .ok v,
   [Stage.evaluateQuery])

/-- The Decision value a run of `EvaluateQuery` settles with (the stage
provably never rejects; the `.null` default is never reached). -/
def evalDecision (oracle : Oracle) (chatHistory : List Message) (latestMessage : String)
    (mcpConfigs : List (String × Json)) (apiKey : Option String) : Json :=
  match (EvaluateQuery oracle chatHistory latestMessage mcpConfigs apiKey).1 with
  | .ok v => v
  | .error _ => .null

/-- The direct-answer formatter (`part_002` lines 238-274): a plain model
call whose catch degrades to the canned apology. -/
def GenerateDirectResponse (oracle : Oracle) (chatHistory : List Message)
    (latestMessage : String) (apiKey : Option String) : Except String Json × List Stage :=
  (match callOpenAI oracle (.direct chatHistory latestMessage) apiKey false with
   | .error _ => .ok (.str clientApology)
   | .ok v => .ok v,
   [Stage.generateDirectResponse])

/-- The Tool Execution Stage (`part_002` lines 276-334): a falsy registry
entry returns the not-found error string before any model call; the `try`
around the model call converts a thrown client error into the distinctly
prefixed error string of line 331. -/
def ExecuteMCPCall (oracle : Oracle) (serverName : String) (chatHistory : List Message)
    (latestMessage : String) (mcpConfigs : List (String × Json)) (apiKey : Option String) :
    Except String Json × List Stage :=
  (let serverConfig := lookupField mcpConfigs serverName
   if !jsTruthyOpt serverConfig then
     .ok (.str ("Error: Could not find MCP server configuration for " ++ serverName))
   else
     match callOpenAI oracle
       (.execute serverName (serverConfig.getD .null) chatHistory latestMessage) apiKey false with
     | .error e => .ok (.str ("Error executing MCP call: " ++ e))
     | .ok v => .ok v,
   [Stage.executeMCPCall])

/-- Canned reply of `FormatResponse`'s catch (`part_002` line 372). -/
def formatApology : String :=
  "I encountered an error while formatting my response. Please try asking your question again in a different way."

/-- The Response Formatting Stage (`part_002` lines 336-375). -/
def FormatResponse (oracle : Oracle) (chatHistory : List Message) (latestMessage : String)
    (mcpResult : Json) (apiKey : Option String) : Except String Json × List Stage :=
  (match callOpenAI oracle (.format chatHistory latestMessage mcpResult) apiKey false with
   | .error _ => .ok (.str formatApology)
   | .ok v => .ok v,
   [Stage.formatResponse])

/-- Apology built by `Chatbot`'s outer catch (`part_002` line 449). -/
def chatbotCatchMsg (e : String) : String :=
  "Sorry, I encountered an error while processing your request: " ++ e

/-- The Pipeline Orchestrator (`part_002` lines 377-452): decide, then
either execute-and-format or answer directly; every rejection of a stage
call would be converted by the outer catch into the apology carrying the
failure's message (no modelled failure reaches it). -/
def Chatbot (oracle : Oracle) (chatHistory : List Message) (latestMessage : String)
    (mcpConfigs : List (String × Json)) (apiKey : Option String) :
    Except String Json × List Stage :=
  let ev := EvaluateQuery oracle chatHistory latestMessage mcpConfigs apiKey
  match ev.1 with
  | .error e => (.ok (.str (chatbotCatchMsg e)), ev.2)
  | .ok d =>
    if d.isNull then
      -- destructuring `{ needsMCP, serverName }` from null throws, into the catch
      (.ok (.str (chatbotCatchMsg "Cannot destructure property of null")), ev.2)
    else
      let needsMCP := jsTruthyOpt (jsGet d "needsMCP")
      let serverName := jsGet d "serverName"
      if needsMCP && jsTruthyOpt serverName then
        let ex := ExecuteMCPCall oracle (jsToString (serverName.getD .null))
          chatHistory latestMessage mcpConfigs apiKey
        match ex.1 with
        | .error e => (.ok (.str (chatbotCatchMsg e)), ev.2 ++ ex.2)
        | .ok mcpResult =>
          let fm := FormatResponse oracle chatHistory latestMessage mcpResult apiKey
          match fm.1 with
          | .error e => (.ok (.str (chatbotCatchMsg e)), ev.2 ++ ex.2 ++ fm.2)
          | .ok v => (.ok v, ev.2 ++ ex.2 ++ fm.2)
      else
        let dr := GenerateDirectResponse oracle chatHistory latestMessage apiKey
        match dr.1 with
        | .error e => (.ok (.str (chatbotCatchMsg e)), ev.2 ++ dr.2)
        | .ok v => (.ok v, ev.2 ++ dr.2)

/-- Outcome of the `fetch('/config.json')` round trip of `processMessage`.
`success` carries the parsed body; a body that is not valid JSON is folded
into `networkError` (both throw into the same catch). -/
inductive ConfigOutcome where
  | networkError (msg : String) : ConfigOutcome
  | httpError (statusText : String) : ConfigOutcome
  | success (doc : Json) : ConfigOutcome

/-- Fixed apology of `processMessage`'s catch (`part_002` line 479). -/
def pmApology : String :=
  "Sorry, there was an error processing your request. Please check your API key and try again."

/-- The top-level entry point (`part_002` lines 454-481): fetch the tool
configuration, read its `mcpServers` mapping (`Object.keys` on a missing
or null mapping throws), run `Chatbot`, and degrade any escaped failure to
the fixed apology. -/
def processMessage (config : ConfigOutcome) (oracle : Oracle) (chatHistory : List Message)
    (latestMessage : String) (apiKey : Option String) : Except String Json × List Stage :=
  match config with
  | .networkError _ => (.ok (.str pmApology), [])
  | .httpError _ => (.ok (.str pmApology), [])
  | .success doc =>
    match jsGet doc "mcpServers" with
    | none => (.ok (.str pmApology), [])
    | some mv =>
      if mv.isNull then (.ok (.str pmApology), [])
      else
        let cb := Chatbot oracle chatHistory latestMessage (jsEntries mv) apiKey
        match cb.1 with
        | .error _ => (.ok (.str pmApology), cb.2)
        | .ok v => (.ok v, cb.2)

/-- Whether `sub` occurs as a substring of `hay` (used to state that an
apology does or does not include a failure's description). -/
def containsSub (hay sub : String) : Bool :=
  (splitFirst sub.toList hay.toList).isSome

/-! ### Helper lemmas -/

/-- A value with a truthy property is an object. -/
theorem jsGet_truthy_obj {j : Json} {k : String} (h : jsTruthyOpt (jsGet j k) = true) :
    ∃ fs, j = Json.obj fs := by
  cases j <;> first
    | exact ⟨_, rfl⟩
    | simp [jsGet, jsTruthyOpt] at h

/-- Reading back the key just written. -/
theorem lookupField_setField_self (fs : List (String × Json)) (k : String) (v : Json) :
    lookupField (setField fs k v) k = some v := by
  induction fs with
  | nil => simp [setField, lookupField]
  | cons p rest ih =>
    obtain ⟨k', v'⟩ := p
    by_cases h : k' = k
    · simp [setField, lookupField, h]
    · simp [setField, lookupField, h, ih]

/-- The first registered key always resolves in a non-empty registry. -/
theorem lookupField_firstKey {cfgs : List (String × Json)} (hc : cfgs ≠ []) :
    (lookupField cfgs (firstKey cfgs)).isSome = true := by
  cases cfgs with
  | nil => exact absurd rfl hc
  | cons p tl =>
    obtain ⟨k, v⟩ := p
    simp [firstKey, lookupField]

/-- A plain-text model call settles with a string unless the credential is
missing. -/
theorem callOpenAI_text_str (oracle : Oracle) (req : LLMRequest) (key : Option String) :
    callOpenAI oracle req key false = .error "OpenAI API key is required" ∨
    ∃ s, callOpenAI oracle req key false = .ok (.str s) := by
  cases key with
  | none => exact .inl rfl
  | some k =>
    right
    cases hreq : oracle req with
    | success t => exact ⟨t, by simp [callOpenAI, hreq]⟩
    | httpError m => exact ⟨clientApology, by simp [callOpenAI, hreq, catchFallback]⟩
    | networkError m => exact ⟨clientApology, by simp [callOpenAI, hreq, catchFallback]⟩

/-- `GenerateDirectResponse` always settles with a string. -/
theorem genDirect_str (oracle : Oracle) (hist : List Message) (msg : String)
    (key : Option String) :
    ∃ s, (GenerateDirectResponse oracle hist msg key).1 = .ok (.str s) := by
  rcases callOpenAI_text_str oracle (.direct hist msg) key with he | ⟨s, hs⟩
  · exact ⟨clientApology, by simp [GenerateDirectResponse, he]⟩
  · exact ⟨s, by simp [GenerateDirectResponse, hs]⟩

/-- `FormatResponse` always settles with a string. -/
theorem format_str (oracle : Oracle) (hist : List Message) (msg : String)
    (mcpResult : Json) (key : Option String) :
    ∃ s, (FormatResponse oracle hist msg mcpResult key).1 = .ok (.str s) := by
  rcases callOpenAI_text_str oracle (.format hist msg mcpResult) key with he | ⟨s, hs⟩
  · exact ⟨formatApology, by simp [FormatResponse, he]⟩
  · exact ⟨s, by simp [FormatResponse, hs]⟩

/-- `ExecuteMCPCall` always settles with a string. -/
theorem exec_str (oracle : Oracle) (sn : String) (hist : List Message) (msg : String)
    (cfgs : List (String × Json)) (key : Option String) :
    ∃ s, (ExecuteMCPCall oracle sn hist msg cfgs key).1 = .ok (.str s) := by
  cases htr : jsTruthyOpt (lookupField cfgs sn) with
  | false =>
    exact ⟨"Error: Could not find MCP server configuration for " ++ sn,
      by simp [ExecuteMCPCall, htr]⟩
  | true =>
    rcases callOpenAI_text_str oracle
      (.execute sn ((lookupField cfgs sn).getD .null) hist msg) key with he | ⟨s, hs⟩
    · exact ⟨"Error executing MCP call: " ++ "OpenAI API key is required",
        by simp [ExecuteMCPCall, htr, he]⟩
    · exact ⟨s, by simp [ExecuteMCPCall, htr, hs]⟩

/-- The Decision Stage always settles (its catch degrades every failure),
with the value `evalDecision` names. -/
theorem evalQuery_ok (oracle : Oracle) (hist : List Message) (msg : String)
    (cfgs : List (String × Json)) (key : Option String) :
    (EvaluateQuery oracle hist msg cfgs key).1 = .ok (evalDecision oracle hist msg cfgs key) := by
  cases hb : evalBody oracle hist msg cfgs key <;>
    simp [evalDecision, EvaluateQuery, hb]

/-- Value of the Decision Stage on a successful structured call, before
and after the substitution guard. -/
theorem evalDecision_success (oracle : Oracle) (hist : List Message) (msg : String)
    (cfgs : List (String × Json)) (key : String) (t : String)
    (hor : oracle (.evaluate hist msg cfgs) = .success t) :
    evalDecision oracle hist msg cfgs (some key) =
      (if (parseLLMResponse t).isNull then evalFallback
       else if jsTruthyOpt (jsGet (parseLLMResponse t) "needsMCP") &&
               !jsTruthyOpt (jsGet (parseLLMResponse t) "serverName") &&
               decide (0 < cfgs.length)
            then jsSet (parseLLMResponse t) "serverName" (Json.str (firstKey cfgs))
            else parseLLMResponse t) := by
  unfold evalDecision EvaluateQuery evalBody callOpenAI
  rw [hor]
  by_cases h1 : (parseLLMResponse t).isNull
  · simp [h1]
  · simp only [Bool.not_eq_true] at h1
    by_cases h2 : (jsTruthyOpt (jsGet (parseLLMResponse t) "needsMCP") &&
        !jsTruthyOpt (jsGet (parseLLMResponse t) "serverName") &&
        decide (0 < cfgs.length)) = true
    · simp [h1, h2]
    · simp only [Bool.not_eq_true] at h2
      simp [h1, h2]

/-- Value of the Decision Stage when the structured call hit a non-ok
upstream response. -/
theorem evalDecision_httpError (oracle : Oracle) (hist : List Message) (msg : String)
    (cfgs : List (String × Json)) (key : String) (m : String)
    (hor : oracle (.evaluate hist msg cfgs) = .httpError m) :
    evalDecision oracle hist msg cfgs (some key) =
      Json.obj [("needsMCP", .bool false),
                ("reasoning", .str ("Fallback due to error: " ++ ("OpenAI API error: " ++ m)))] := by
  unfold evalDecision EvaluateQuery evalBody callOpenAI
  rw [hor]
  simp [catchFallback, Json.isNull, jsGet, jsTruthyOpt, jsTruthy, lookupField]

/-- The Pipeline Orchestrator always settles with a string. -/
theorem chatbot_str (oracle : Oracle) (hist : List Message) (msg : String)
    (cfgs : List (String × Json)) (key : Option String) :
    ∃ s, (Chatbot oracle hist msg cfgs key).1 = .ok (.str s) := by
  simp only [Chatbot]
  rw [evalQuery_ok]
  by_cases hnull : (evalDecision oracle hist msg cfgs key).isNull = true
  · exact ⟨chatbotCatchMsg "Cannot destructure property of null", by simp [hnull]⟩
  · simp only [Bool.not_eq_true] at hnull
    by_cases hcond : (jsTruthyOpt (jsGet (evalDecision oracle hist msg cfgs key) "needsMCP") &&
        jsTruthyOpt (jsGet (evalDecision oracle hist msg cfgs key) "serverName")) = true
    · obtain ⟨ms, hms⟩ := exec_str oracle
        (jsToString (((jsGet (evalDecision oracle hist msg cfgs key) "serverName")).getD .null))
        hist msg cfgs key
      obtain ⟨fs, hfs⟩ := format_str oracle hist msg (.str ms) key
      exact ⟨fs, by simp [hnull, hcond, hms, hfs]⟩
    · simp only [Bool.not_eq_true] at hcond
      obtain ⟨ds, hds⟩ := genDirect_str oracle hist msg key
      exact ⟨ds, by simp [hnull, hcond, hds]⟩

/-! ### Concrete fixtures for witnesses and counterexamples -/

/-- A one-entry tool registry, as loaded from a `config.json` with a single
`weather` server. -/
def cfgsW : List (String × Json) :=
  [("weather", Json.obj [("description", Json.str "Weather data server")])]

/-- Model stub whose decision answer names a server that is not in the
registry. -/
def oracleBanana : Oracle := fun _ =>
  .success "\x7b\"needsMCP\":true,\"serverName\":\"banana\",\"reasoning\":\"r\"\x7d"

/-- Model stub whose decision answer asks for a tool but omits the server
name. -/
def oracleNoName : Oracle := fun _ =>
  .success "\x7b\"needsMCP\":true,\"reasoning\":\"r\"\x7d"

/-- Model stub for a dead upstream: every call gets a non-ok response. -/
def oracleDown : Oracle := fun _ => .httpError "insufficient quota"

/-- Model stub for a dead network: every `fetch` rejects. -/
def oracleOffline : Oracle := fun _ => .networkError "Failed to fetch"

/-! ### The claims -/

/-- C1 counterexample: with registry `{weather}` the model stub answers
`needsMCP=true, serverName="banana"`; the Decision Stage returns the
Decision unchanged — `banana` is truthy, so the substitution guard of
`part_002` line 217 does not fire — even though `banana` keys into nothing.
The claim's invariant (post-substitution `toolName` is a registry key, a
non-key being replaced by the first registered tool) therefore fails. -/
theorem C1_counterexample :
    evalDecision oracleBanana [] "what is the weather" cfgsW (some "key") =
      Json.obj [("needsMCP", Json.bool true), ("serverName", Json.str "banana"),
                ("reasoning", Json.str "r")]
    ∧ lookupField cfgsW "banana" = none := ⟨rfl, rfl⟩

/-- C1 (amended): the Decision Stage substitutes the first registered tool
only when the model reported `needsMCP=true` with an absent (falsy)
`serverName` and the registry is non-empty — the substituted name then
keys into the registry; a present, non-empty `serverName` is passed
through unchanged (whether or not it keys into the registry), so the
invariant holds exactly when the model's own choice was a registry key. -/
theorem C1_prop (oracle : Oracle) (hist : List Message) (msg : String)
    (cfgs : List (String × Json)) (key : String) (t : String)
    (hor : oracle (.evaluate hist msg cfgs) = .success t)
    (hn : jsTruthyOpt (jsGet (parseLLMResponse t) "needsMCP") = true) :
    (jsTruthyOpt (jsGet (parseLLMResponse t) "serverName") = false → cfgs ≠ [] →
       getStrField (evalDecision oracle hist msg cfgs (some key)) "serverName" =
         some (firstKey cfgs)
       ∧ (lookupField cfgs (firstKey cfgs)).isSome = true)
    ∧ (∀ s, jsGet (parseLLMResponse t) "serverName" = some (Json.str s) → s ≠ "" →
       getStrField (evalDecision oracle hist msg cfgs (some key)) "serverName" = some s) := by
  obtain ⟨fs, hobj⟩ := jsGet_truthy_obj hn
  have hed := evalDecision_success oracle hist msg cfgs key t hor
  have hnull : (parseLLMResponse t).isNull = false := by rw [hobj]; rfl
  constructor
  · intro hs hc
    have hlen : decide (0 < cfgs.length) = true := by
      cases cfgs with
      | nil => exact absurd rfl hc
      | cons p tl => simp
    have hcond : (jsTruthyOpt (jsGet (parseLLMResponse t) "needsMCP") &&
        !jsTruthyOpt (jsGet (parseLLMResponse t) "serverName") &&
        decide (0 < cfgs.length)) = true := by
      rw [hn, hs, hlen]; rfl
    rw [hed]
    simp only [hnull, hcond, Bool.false_eq_true, if_false, if_true]
    refine ⟨?_, lookupField_firstKey hc⟩
    rw [hobj]
    simp [jsSet, getStrField, jsGet, Json.asStr, lookupField_setField_self]
  · intro s hsv hse
    have hsn : jsTruthyOpt (jsGet (parseLLMResponse t) "serverName") = true := by
      rw [hsv]; simp [jsTruthyOpt, jsTruthy, hse]
    have hcond : (jsTruthyOpt (jsGet (parseLLMResponse t) "needsMCP") &&
        !jsTruthyOpt (jsGet (parseLLMResponse t) "serverName") &&
        decide (0 < cfgs.length)) = false := by
      rw [hsn]; simp
    rw [hed]
    simp only [hnull, hcond, Bool.false_eq_true, if_false]
    simp [getStrField, hsv, Json.asStr]

/-- C1 witness: with the server name omitted and a non-empty registry, the
amended claim yields the first registered server, which keys into the
registry. -/
theorem C1_witness :
    getStrField (evalDecision oracleNoName [] "q" cfgsW (some "key")) "serverName" =
      some (firstKey cfgsW)
    ∧ (lookupField cfgsW (firstKey cfgsW)).isSome = true :=
  (C1_prop oracleNoName [] "q" cfgsW "key"
    "\x7b\"needsMCP\":true,\"reasoning\":\"r\"\x7d" rfl rfl).1 rfl
    (by unfold cfgsW; exact List.cons_ne_nil _ _)

/-- C2 counterexample: a configuration-load failure (non-ok response for
`/config.json`, status text `Not Found`) is caught at `processMessage`'s
outer boundary, but the apology it returns is the fixed string of
`part_002` line 479, which does not include the description of the thrown
failure (`Failed to fetch configuration: Not Found`, line 463) — the
description goes only to the log sink.  The claim's requirement that the
boundary apology include the failure's description therefore fails. -/
theorem C2_counterexample :
    (processMessage (.httpError "Not Found") oracleNoName [] "hello" (some "key")).1 =
      .ok (.str pmApology)
    ∧ containsSub pmApology "Failed to fetch configuration: Not Found" = false
    ∧ containsSub pmApology "Not Found" = false := ⟨rfl, rfl, rfl⟩

/-- C2 (amended): for every configuration outcome, model behaviour, chat
history, message and credential, the top-level `processMessage` settles
with a string and never rejects — every stage failure is degraded locally
and the config-load failure is converted at the outer boundary into the
fixed apology (whose text does not include the failure's description). -/
theorem C2_prop (config : ConfigOutcome) (oracle : Oracle) (hist : List Message)
    (msg : String) (key : Option String) :
    ∃ s : String, (processMessage config oracle hist msg key).1 = .ok (.str s) := by
  cases config with
  | networkError m => exact ⟨pmApology, rfl⟩
  | httpError m => exact ⟨pmApology, rfl⟩
  | success doc =>
    cases hmv : jsGet doc "mcpServers" with
    | none => exact ⟨pmApology, by simp [processMessage, hmv]⟩
    | some mv =>
      by_cases hnull : mv.isNull = true
      · exact ⟨pmApology, by simp [processMessage, hmv, hnull]⟩
      · simp only [Bool.not_eq_true] at hnull
        obtain ⟨s, hs⟩ := chatbot_str oracle hist msg (jsEntries mv) key
        exact ⟨s, by simp [processMessage, hmv, hnull, hs]⟩

/-- C3: the Response Parser attempts, in the order of `part_002` lines
104-112, (a) strict parse of the whole text, then the extractions
(b) first `json`-labeled fence, (c) first unlabeled fence, (d) first-brace
to last-brace substring, stopping at the first strategy that applies; the
capture of the first matching extraction is (trimmed and) parsed and its
value returned (`handleExtracted`; a failing or empty capture degrades to
the sentinels, which C4 describes).  Later extractions are never consulted
once an earlier one matches. -/
theorem C3_prop (t : String) :
    (∀ v, jsonParse t = some v → parseLLMResponse t = v)
    ∧ (jsonParse t = none → ∀ c, matchJsonFence t = some c →
        parseLLMResponse t = handleExtracted t c)
    ∧ (jsonParse t = none → matchJsonFence t = none → ∀ c, matchAnyFence t = some c →
        parseLLMResponse t = handleExtracted t c)
    ∧ (jsonParse t = none → matchJsonFence t = none → matchAnyFence t = none →
        ∀ c, matchBraces t = some c → parseLLMResponse t = handleExtracted t c)
    ∧ (jsonParse t = none → matchJsonFence t = none → matchAnyFence t = none →
        matchBraces t = none → parseLLMResponse t = noPatternSentinel) := by
  refine ⟨?_, ?_, ?_, ?_, ?_⟩ <;> intros <;>
    simp_all [parseLLMResponse, jsonMatchCapture]

/-- C3 witness: prose around a labeled fence defeats the strict parse,
strategy (b) fires, and the fenced object is parsed and returned. -/
theorem C3_witness :
    jsonParse "Sure! ```json\n\x7b\"needsMCP\": false, \"reasoning\": \"greeting\"\x7d\n``` done" = none
    ∧ parseLLMResponse "Sure! ```json\n\x7b\"needsMCP\": false, \"reasoning\": \"greeting\"\x7d\n``` done" =
        handleExtracted "Sure! ```json\n\x7b\"needsMCP\": false, \"reasoning\": \"greeting\"\x7d\n``` done"
          "\x7b\"needsMCP\": false, \"reasoning\": \"greeting\"\x7d" :=
  ⟨rfl,
   (C3_prop "Sure! ```json\n\x7b\"needsMCP\": false, \"reasoning\": \"greeting\"\x7d\n``` done").2.1
     rfl "\x7b\"needsMCP\": false, \"reasoning\": \"greeting\"\x7d" rfl⟩

/-- C4 counterexample: on the malformed text `hello` (no braces, no
fences) the parser returns the no-pattern sentinel of `part_002` lines
135-138, whose reasoning is a fixed message that does not embed any prefix
of the original text — contradicting the claim that the sentinel's
reasoning embeds a truncated 100-character prefix of the input. -/
theorem C4_counterexample :
    parseLLMResponse "hello" = noPatternSentinel
    ∧ jsGet noPatternSentinel "needsMCP" = some (.bool false)
    ∧ getStrField noPatternSentinel "reasoning" =
        some "Fallback due to JSON parsing error. No JSON pattern found."
    ∧ "hello".take 100 = "hello"
    ∧ containsSub "Fallback due to JSON parsing error. No JSON pattern found." "hello" = false :=
  ⟨rfl, rfl, rfl, rfl, rfl⟩

/-- C4 (amended): the Response Parser is total (the model never raises)
and returns either a successfully parsed structured value — of the whole
text or of a non-empty extracted candidate — or one of two `needsMCP=false`
sentinels: the raw-response sentinel, whose reasoning embeds the
100-character truncated prefix of the original text (when an extracted
candidate failed to parse), or the fixed no-pattern sentinel (when nothing
was extracted or the capture was empty). -/
theorem C4_prop (t : String) :
    (jsonParse t = some (parseLLMResponse t)
     ∨ (∃ c, jsonMatchCapture t = some c ∧ c ≠ "" ∧
          jsonParse (trimStr c) = some (parseLLMResponse t))
     ∨ parseLLMResponse t = rawSentinel t
     ∨ parseLLMResponse t = noPatternSentinel)
    ∧ jsGet (rawSentinel t) "needsMCP" = some (.bool false)
    ∧ getStrField (rawSentinel t) "reasoning" =
        some ("Fallback due to JSON parsing error. Raw response: " ++ t.take 100)
    ∧ jsGet noPatternSentinel "needsMCP" = some (.bool false) := by
  refine ⟨?_, rfl, rfl, rfl⟩
  unfold parseLLMResponse
  cases hp : jsonParse t with
  | some v => exact .inl rfl
  | none =>
    cases hc : jsonMatchCapture t with
    | none => exact .inr (.inr (.inr rfl))
    | some c =>
      by_cases hce : c = ""
      · exact .inr (.inr (.inr (by subst hce; simp [handleExtracted])))
      · cases hpc : jsonParse (trimStr c) with
        | some v =>
          exact .inr (.inl ⟨c, rfl, hce, by simp [handleExtracted, hce, hpc]⟩)
        | none => exact .inr (.inr (.inl (by simp [handleExtracted, hce, hpc])))

/-- C5: on each failure of the model call behind the Decision Stage the
stage returns a no-tool Decision with a failure-describing reasoning.
(1) Missing credential: `callOpenAI` throws before its `try`, the stage's
catch returns `needsMCP=false` with the fixed reasoning `Error during
evaluation, falling back to direct response` (which mentions that an error
occurred; the thrown message itself goes to the log sink), and the
pipeline still returns the non-empty direct-path apology.  (2) Non-ok
upstream response: the client's own catch yields `needsMCP=false` with a
reasoning embedding the upstream error text.  (3) Parse sentinel: the
sentinel (already `needsMCP=false`) is passed through unchanged with its
reasoning intact. -/
theorem C5_prop (oracle : Oracle) (hist : List Message) (msg : String)
    (cfgs : List (String × Json)) (key : String) :
    (jsGet (evalDecision oracle hist msg cfgs none) "needsMCP" = some (.bool false)
     ∧ getStrField (evalDecision oracle hist msg cfgs none) "reasoning" =
         some "Error during evaluation, falling back to direct response"
     ∧ containsSub "Error during evaluation, falling back to direct response" "Error" = true
     ∧ (Chatbot oracle hist msg cfgs none).1 = .ok (.str clientApology)
     ∧ clientApology ≠ "")
    ∧ (∀ m, oracle (.evaluate hist msg cfgs) = .httpError m →
        jsGet (evalDecision oracle hist msg cfgs (some key)) "needsMCP" = some (.bool false)
        ∧ getStrField (evalDecision oracle hist msg cfgs (some key)) "reasoning" =
            some ("Fallback due to error: " ++ ("OpenAI API error: " ++ m)))
    ∧ (∀ t r, oracle (.evaluate hist msg cfgs) = .success t →
        parseLLMResponse t = Json.obj [("needsMCP", .bool false), ("reasoning", .str r)] →
        jsGet (evalDecision oracle hist msg cfgs (some key)) "needsMCP" = some (.bool false)
        ∧ getStrField (evalDecision oracle hist msg cfgs (some key)) "reasoning" = some r) := by
  refine ⟨⟨rfl, rfl, rfl, rfl, by decide⟩, ?_, ?_⟩
  · intro m hm
    rw [evalDecision_httpError oracle hist msg cfgs key m hm]
    exact ⟨rfl, rfl⟩
  · intro t r hor hp
    rw [evalDecision_success oracle hist msg cfgs key t hor, hp]
    simp [Json.isNull, jsGet, jsTruthyOpt, jsTruthy, lookupField, getStrField, Json.asStr]

/-- C5 witness: a dead upstream makes the Decision Stage return
`needsMCP=false` with the error-embedding reasoning. -/
theorem C5_witness :
    jsGet (evalDecision oracleDown [] "hi" [] (some "key")) "needsMCP" = some (.bool false)
    ∧ getStrField (evalDecision oracleDown [] "hi" [] (some "key")) "reasoning" =
        some ("Fallback due to error: " ++ ("OpenAI API error: " ++ "insufficient quota")) :=
  (C5_prop oracleDown [] "hi" [] "key").2.1 "insufficient quota" rfl

/-- C6: when the model reports `needsMCP=true` without a `serverName` and
the registry is non-empty, the Decision Stage substitutes the first
registered server name (head of the registration order), per `part_002`
lines 217-222. -/
theorem C6_prop (oracle : Oracle) (hist : List Message) (msg : String)
    (cfgs : List (String × Json)) (key : String) (t : String)
    (hor : oracle (.evaluate hist msg cfgs) = .success t)
    (hn : jsTruthyOpt (jsGet (parseLLMResponse t) "needsMCP") = true)
    (hs : jsGet (parseLLMResponse t) "serverName" = none)
    (hc : cfgs ≠ []) :
    getStrField (evalDecision oracle hist msg cfgs (some key)) "serverName" =
      some (firstKey cfgs) := by
  obtain ⟨fs, hobj⟩ := jsGet_truthy_obj hn
  have hnull : (parseLLMResponse t).isNull = false := by rw [hobj]; rfl
  have hlen : decide (0 < cfgs.length) = true := by
    cases cfgs with
    | nil => exact absurd rfl hc
    | cons p tl => simp
  have hcond : (jsTruthyOpt (jsGet (parseLLMResponse t) "needsMCP") &&
      !jsTruthyOpt (jsGet (parseLLMResponse t) "serverName") &&
      decide (0 < cfgs.length)) = true := by
    rw [hn, hs, hlen]; rfl
  rw [evalDecision_success oracle hist msg cfgs key t hor]
  simp only [hnull, hcond, Bool.false_eq_true, if_false, if_true]
  rw [hobj]
  simp [jsSet, getStrField, jsGet, Json.asStr, lookupField_setField_self]

/-- C6 witness: the no-name fixture substitutes `weather`, the head of the
one-entry registry. -/
theorem C6_witness :
    getStrField (evalDecision oracleNoName [] "will it rain" cfgsW (some "key")) "serverName" =
      some (firstKey cfgsW) :=
  C6_prop oracleNoName [] "will it rain" cfgsW "key"
    "\x7b\"needsMCP\":true,\"reasoning\":\"r\"\x7d" rfl rfl rfl
    (by unfold cfgsW; exact List.cons_ne_nil _ _)

/-- C7: the Tool Execution Stage always settles with a string; a
`serverName` that does not key into the registry yields the not-found
error string and the stage's outcome does not depend on the model oracle
at all (no model call is made); and the one exception the model client can
throw into the stage (the missing credential) is caught and converted into
the distinctly prefixed `Error executing MCP call: ` string. -/
theorem C7_prop (oracle oracle' : Oracle) (serverName : String) (hist : List Message)
    (msg : String) (cfgs : List (String × Json)) (key : Option String) :
    (∃ s, (ExecuteMCPCall oracle serverName hist msg cfgs key).1 = .ok (.str s))
    ∧ (lookupField cfgs serverName = none →
        (ExecuteMCPCall oracle serverName hist msg cfgs key).1 =
          .ok (.str ("Error: Could not find MCP server configuration for " ++ serverName))
        ∧ ExecuteMCPCall oracle serverName hist msg cfgs key =
            ExecuteMCPCall oracle' serverName hist msg cfgs key)
    ∧ (∀ cfg, lookupField cfgs serverName = some cfg → jsTruthy cfg = true →
        (ExecuteMCPCall oracle serverName hist msg cfgs none).1 =
          .ok (.str ("Error executing MCP call: " ++ "OpenAI API key is required"))) := by
  refine ⟨exec_str oracle serverName hist msg cfgs key, ?_, ?_⟩
  · intro habs
    constructor <;> simp [ExecuteMCPCall, habs, jsTruthyOpt]
  · intro cfg hfound htr
    simp [ExecuteMCPCall, hfound, jsTruthyOpt, htr, callOpenAI]

/-- C7 witness: the unknown name `maps` yields the not-found string, and
two runs against different oracles agree bit for bit. -/
theorem C7_witness :
    (ExecuteMCPCall oracleNoName "maps" [] "q" cfgsW (some "key")).1 =
      .ok (.str ("Error: Could not find MCP server configuration for " ++ "maps"))
    ∧ ExecuteMCPCall oracleNoName "maps" [] "q" cfgsW (some "key") =
        ExecuteMCPCall oracleDown "maps" [] "q" cfgsW (some "key") :=
  (C7_prop oracleNoName oracleDown "maps" [] "q" cfgsW (some "key")).2.1 rfl

/-- C8 counterexample: on a transport failure (`fetch` rejecting with
`Failed to fetch`) the Model Client of `part_002` does not raise — its
outer catch (lines 143-154) manufactures and returns a canned apology text
(plain mode) and a fabricated `needsMCP=false` object (structured mode),
so fallback is decided inside the client, not by the calling stage. -/
theorem C8_counterexample :
    callOpenAI oracleOffline (.direct [] "hello") (some "key") false =
      .ok (.str clientApology)
    ∧ callOpenAI oracleOffline (.evaluate [] "hello" []) (some "key") true =
      .ok (.obj [("needsMCP", .bool false),
                 ("reasoning", .str "Fallback due to error: Failed to fetch")]) :=
  ⟨rfl, rfl⟩

/-- C8 (amended): the Model Client raises only on a missing credential;
on a transport failure or a non-ok upstream response it catches the
failure itself and returns a manufactured fallback — the canned apology
text when plain output was requested, a `needsMCP=false` object whose
reasoning embeds the failure text when structured output was requested —
delivered to the calling stage as a normal result. -/
theorem C8_prop (oracle : Oracle) (req : LLMRequest) (key : String)
    (useJson : Bool) (m : String) :
    callOpenAI oracle req none useJson = .error "OpenAI API key is required"
    ∧ (oracle req = .networkError m →
        callOpenAI oracle req (some key) false = .ok (.str clientApology)
        ∧ callOpenAI oracle req (some key) true =
            .ok (.obj [("needsMCP", .bool false),
                       ("reasoning", .str ("Fallback due to error: " ++ m))]))
    ∧ (oracle req = .httpError m →
        callOpenAI oracle req (some key) false = .ok (.str clientApology)
        ∧ callOpenAI oracle req (some key) true =
            .ok (.obj [("needsMCP", .bool false),
                       ("reasoning", .str ("Fallback due to error: " ++
                         ("OpenAI API error: " ++ m)))])) := by
  refine ⟨rfl, ?_, ?_⟩ <;> intro hm <;>
    exact ⟨by simp [callOpenAI, hm, catchFallback], by simp [callOpenAI, hm, catchFallback]⟩

/-- C8 witness: the amended behaviour at a concrete dead-network oracle. -/
theorem C8_witness :
    callOpenAI oracleOffline (.direct [] "hi") (some "key") false = .ok (.str clientApology)
    ∧ callOpenAI oracleOffline (.direct [] "hi") (some "key") true =
        .ok (.obj [("needsMCP", .bool false),
                   ("reasoning", .str ("Fallback due to error: " ++ "Failed to fetch"))]) :=
  (C8_prop oracleOffline (.direct [] "hi") "key" false "Failed to fetch").2.1 rfl

/-- C9: the Formatting Stage is stateless; against one (deterministic)
model stub, two invocations whose `(history, newMessage, toolResult)` and
credential inputs are equal settle with equal results and equal log
traces.  The congruence holds because the stage's outcome is a function of
exactly these arguments — it reads no ambient state. -/
theorem C9_prop (oracle : Oracle) (h1 h2 : List Message) (m1 m2 : String)
    (r1 r2 : Json) (k1 k2 : Option String)
    (hh : h1 = h2) (hm : m1 = m2) (hr : r1 = r2) (hk : k1 = k2) :
    FormatResponse oracle h1 m1 r1 k1 = FormatResponse oracle h2 m2 r2 k2 := by
  subst hh; subst hm; subst hr; subst hk; rfl

/-- C9 witness: two identical formatting calls at concrete inputs agree. -/
theorem C9_witness :
    FormatResponse oracleNoName [] "q" (.str "result") (some "key") =
      FormatResponse oracleNoName [] "q" (.str "result") (some "key") :=
  C9_prop oracleNoName [] [] "q" "q" (.str "result") (.str "result")
    (some "key") (some "key") rfl rfl rfl rfl

/-- C10: whenever the Decision that reaches the orchestrator has a truthy
`needsMCP` but a falsy (absent) `serverName` after the substitution step —
as happens whenever the registry is empty — the `needsMCP && serverName`
branch guard of `part_002` line 398 fails, so the orchestrator takes the
direct path: the run's stage trace is exactly evaluation followed by the
direct response, `ExecuteMCPCall` is never entered, and
`GenerateDirectResponse` is. -/
theorem C10_prop (oracle : Oracle) (hist : List Message) (msg : String)
    (cfgs : List (String × Json)) (key : Option String)
    (hn : jsTruthyOpt (jsGet (evalDecision oracle hist msg cfgs key) "needsMCP") = true)
    (hs : jsTruthyOpt (jsGet (evalDecision oracle hist msg cfgs key) "serverName") = false) :
    (Chatbot oracle hist msg cfgs key).2 =
      [Stage.evaluateQuery, Stage.generateDirectResponse]
    ∧ Stage.executeMCPCall ∉ (Chatbot oracle hist msg cfgs key).2
    ∧ Stage.generateDirectResponse ∈ (Chatbot oracle hist msg cfgs key).2 := by
  obtain ⟨fs, hobj⟩ := jsGet_truthy_obj hn
  have hnull : (evalDecision oracle hist msg cfgs key).isNull = false := by rw [hobj]; rfl
  have htr : (Chatbot oracle hist msg cfgs key).2 =
      [Stage.evaluateQuery, Stage.generateDirectResponse] := by
    simp only [Chatbot]
    rw [evalQuery_ok]
    simp only [hnull, hn, hs, Bool.false_eq_true, if_false, Bool.and_false]
    cases (GenerateDirectResponse oracle hist msg key).1 <;>
      simp [EvaluateQuery, GenerateDirectResponse]
  refine ⟨htr, ?_, ?_⟩ <;> rw [htr] <;> decide

/-- C10 witness: empty registry, model asks for a tool without naming one;
the run goes through the direct path only. -/
theorem C10_witness :
    (Chatbot oracleNoName [] "q" [] (some "key")).2 =
      [Stage.evaluateQuery, Stage.generateDirectResponse]
    ∧ Stage.executeMCPCall ∉ (Chatbot oracleNoName [] "q" [] (some "key")).2
    ∧ Stage.generateDirectResponse ∈ (Chatbot oracleNoName [] "q" [] (some "key")).2 :=
  C10_prop oracleNoName [] "q" [] (some "key") rfl rfl

end GensxMcp
